import Mathlib

/-!
Shallow embedding of the filtering / metadata-extraction core of
`src/bin/filter.py` (functions `get_archive_metadata`, `filter_granule`,
`filter_granules`), together with theorems checking the specification's
claims about it.

Modelling conventions:
* Python strings are Lean `String`s; the string operations the source uses
  (`in`, `str.replace`, `str.split`, `os.path.basename`, `Path.suffix`,
  `Path.parent`, `Path.joinpath`, slicing `[:-n]`) are re-implemented below
  by structural recursion over `List Char` so that every definition reduces
  inside the kernel.
* XML documents (what `xml.etree.ElementTree` parses) are the `Xml` tree
  type; `ElementTree.findall` / `findtext` / `.get` / `.text` are modelled
  for the simple `./a/b/c` paths (with `*` wildcard steps) that the source
  uses.
* External collaborators (the `zipfile` library, `ElementTree.parse` of a
  filesystem path, `dateutil.parser.parse`, `wagl.acquisition.acquisitions`
  and the `tesp.workflow.Package(...).output().exists()` package locator)
  are fields of an explicit environment `Env`.
* Python exceptions are an explicit `Except`; an uncaught exception in
  `filter_granule` / `filter_granules` is an `Except.error` carrying the
  exception and the accumulator state reached so far (writes made to the
  worklist stream before the exception persist, as they do for the real
  temp-file stream).
* The worklist out-stream, the running granule count, the package-locator
  invocations and the log calls are threaded as one explicit `FilterState`;
  the `queries` and `logs` fields record, in order, the collaborator calls
  the code makes (each `package.output().exists()` call site appends one
  query; each `logging.*` call site appends one event).
-/

/-! ## Python-style string primitives (structural, kernel-reducible) -/

/-- Characters of a string. -/
def strChars (s : String) : List Char := s.data

/-- Build a string from characters. -/
def charsToStr (l : List Char) : String := String.mk l

/-- Is `pat` a prefix of `l`? -/
def isPrefixOfChars : List Char → List Char → Bool
  | [], _ => true
  | _ :: _, [] => false
  | a :: as, b :: bs => a == b && isPrefixOfChars as bs

/-- Does `hay` contain `pat` as a contiguous substring (Python `pat in hay`)? -/
def containsChars (hay pat : List Char) : Bool :=
  match hay with
  | [] => pat.isEmpty
  | _ :: rest => isPrefixOfChars pat hay || containsChars rest pat

/-- Python `pat in s` (substring containment). -/
def strContains (s pat : String) : Bool := containsChars s.data pat.data

/-- Fuel-driven replace-all worker; the fuel is an upper bound on the number
of characters of the haystack still to be consumed, so with fuel
`hay.length + 1` the third equation is never the one that fires. -/
def replaceAux (pat rep : List Char) : Nat → List Char → List Char
  | _, [] => []
  | 0, hay => hay
  | Nat.succ f, c :: rest =>
    if !pat.isEmpty && isPrefixOfChars pat (c :: rest) then
      rep ++ replaceAux pat rep f (List.drop pat.length (c :: rest))
    else
      c :: replaceAux pat rep f rest

/-- Python `s.replace(pat, rep)` (replace every occurrence, left to right).
The call sites in the source never pass an empty `pat`. -/
def pyReplace (s pat rep : String) : String :=
  charsToStr (replaceAux pat.data rep.data (s.data.length + 1) s.data)

/-- Split on a single-character separator; Python `s.split(sep)` semantics
(an empty string yields `[""]`, never `[]`). -/
def splitChar (sep : Char) : List Char → List (List Char)
  | [] => [[]]
  | c :: rest =>
    match splitChar sep rest with
    | [] => [[c]]
    | h :: t => if c == sep then [] :: h :: t else (c :: h) :: t

/-- Python `s.split(sep)` for a one-character separator. -/
def pySplit (s : String) (sep : Char) : List String :=
  (splitChar sep s.data).map charsToStr

/-- Python `s[:-n]` (drop the final `n` characters; empty when `n ≥ len`). -/
def pyDropRight (s : String) (n : Nat) : String :=
  charsToStr (s.data.take (s.data.length - n))

/-- Python truthiness of an optional string (`None` and `''` are falsy). -/
def pyTruthy : Option String → Bool
  | none => false
  | some s => !s.data.isEmpty

/-! ## Path primitives (`os.path` / `pathlib`) -/

/-- Model of `os.path.basename`: everything after the last `/`. -/
def basename (p : String) : String :=
  (pySplit p '/').getLastD ""

/-- Model of `pathlib.Path.suffix`: the extension of the final component, including
the dot; a leading dot alone (a dotfile) is not a suffix. -/
def pathSuffix (p : String) : String :=
  match pySplit (basename p) '.' with
  | [] => ""
  | [_] => ""
  | first :: rest =>
    if first = "" && rest.length = 1 then "" else "." ++ rest.getLastD ""

/-- Model of `pathlib.Path.parent` for the simple relative/absolute paths used here. -/
def pathParent (p : String) : String :=
  match (pySplit p '/').dropLast with
  | [] => "."
  | [""] => "/"
  | parts => String.intercalate "/" parts

/-- Model of `Path.joinpath` / `os.path.join` for a relative second component. -/
def pathJoin (a b : String) : String :=
  if a = "." then b
  else if a.data.getLast? = some '/' then a ++ b
  else a ++ "/" ++ b

/-! ## XML documents and the ElementTree operations the source uses -/

/-- An XML element: tag, attributes, text content, children. -/
inductive Xml where
  | node (tag : String) (attrs : List (String × String)) (text : Option String)
      (children : List Xml)

/-- Tag of an element. -/
def Xml.tag : Xml → String
  | .node t _ _ _ => t

/-- Attribute list of an element. -/
def Xml.attrs : Xml → List (String × String)
  | .node _ a _ _ => a

/-- Text content of an element (`Element.text`, `None` when absent). -/
def Xml.text : Xml → Option String
  | .node _ _ tx _ => tx

/-- Children of an element. -/
def Xml.children : Xml → List Xml
  | .node _ _ _ c => c

/-- Model of `Element.get(key)`: attribute lookup, `None` when absent. -/
def Xml.attr (x : Xml) (key : String) : Option String :=
  (x.attrs.find? (fun kv => kv.1 == key)).map (fun kv => kv.2)

/-- Does element `x` match path step `s` (`*` matches any tag)? -/
def matchStep (s : String) (x : Xml) : Bool :=
  s == "*" || x.tag == s

/-- Children of `x` matching step `s`. -/
def childrenMatching (s : String) (x : Xml) : List Xml :=
  x.children.filter (matchStep s)

/-- All step-`s` children of every node of `l`, in document order. -/
def gatherChildren (s : String) : List Xml → List Xml
  | [] => []
  | x :: xs => childrenMatching s x ++ gatherChildren s xs

/-- Run the remaining path steps from each node of `l`. -/
def findallAux : List String → List Xml → List Xml
  | [], l => l
  | s :: rest, l => findallAux rest (gatherChildren s l)

/-- Parse an ElementTree path of the shape `./a/*/b` into its steps. -/
def parseSteps (path : String) : List String :=
  let parts := pySplit path '/'
  if parts.head? = some "." then parts.tail else parts

/-- Model of `Element.findall(path)` for the simple downward paths used in the source. -/
def Xml.findall (x : Xml) (path : String) : List Xml :=
  findallAux (parseSteps path) [x]

/-- Model of `Element.findtext(tag)`: text of the first match, with `Element.text`
of `None` rendered as `''`; `None` when there is no match. -/
def Xml.findtext (x : Xml) (path : String) : Option String :=
  match x.findall path with
  | [] => none
  | e :: _ => some (e.text.getD "")

/-! ## Exceptions, collaborators, archives -/

/-- The Python exceptions the modelled code can raise. -/
inductive PyError where
  | badZipFile
  | indexError
  | attributeError
  | typeError
  | parseError
deriving DecidableEq, Repr

/-- A parsed timestamp as the filter consumes it: `dateutil` returns a
datetime of which the code only ever uses `strftime('%Y-%m-%d')`. -/
structure PyDateTime where
  ymd : String
deriving DecidableEq, Repr

/-- A zip archive: member names in order, each with its parse result
(`none` models a member whose bytes `ElementTree.XML` rejects). -/
structure Archive where
  members : List (String × Option Xml)

/-- Model of `ZipFile.namelist()`. -/
def Archive.namelist (a : Archive) : List String :=
  a.members.map (fun m => m.1)

/-- Model of `archive.read(name)` followed by `ElementTree.XML`: `none` when the
member is absent or its content is not parseable XML. -/
def Archive.read (a : Archive) (name : String) : Option Xml :=
  (a.members.find? (fun m => m.1 == name)).bind (fun m => m.2)

/-- The external collaborators of the filtering core:
`openZip` is `zipfile.ZipFile` (fails on directories and non-zip bytes),
`readXml` is `ElementTree.parse` of a filesystem path,
`dateParse` is `dateutil.parser.parse`,
`acquisitionsOk` tells whether `wagl.acquisition.acquisitions` succeeds, and
`packageExists` is `Package(level1=..., granule=..., pkgdir=...).output().exists()`. -/
structure Env where
  openZip : String → Option Archive
  readXml : String → Option Xml
  dateParse : String → Option PyDateTime
  acquisitionsOk : String → Bool
  packageExists : String → String → String → Bool

/-- The extractor's result: `granule_id → parsed sensing time`, in dict
insertion order.  The key is `Element.get('granuleIdentifier')`, which is
`None` when the attribute is absent, exactly as in Python. -/
abbrev GranMd := List (Option String × PyDateTime)

/-- Python `results[k] = v` on a dict kept as an ordered association list:
an existing key is updated in place, a new key is appended. -/
def dictInsert (k : Option String) (v : PyDateTime) (l : GranMd) : GranMd :=
  if l.any (fun kv => kv.1 == k) then
    l.map (fun kv => if kv.1 == k then (k, v) else kv)
  else
    l ++ [(k, v)]

/-! ## `get_archive_metadata` (filter.py lines 32-86) -/

/-- The canonical product-metadata token searched first (line 43). -/
def productToken : String := "MTD_MSIL1C.xml"

/-- Lines 45-46: the fallback pattern derived from the archive's own name:
`basename(str(pathname).replace('PRD_MSIL1C', 'MTD_SAFL1C')).replace('.zip', '.xml')`. -/
def fallbackPattern (pathname : String) : String :=
  pyReplace (basename (pyReplace pathname "PRD_MSIL1C" "MTD_SAFL1C")) ".zip" ".xml"

/-- Lines 43-47: the candidate product-metadata member names, by direct
token search and then by the derived-pattern fallback search. -/
def locateProductFiles (a : Archive) (pathname : String) : List String :=
  let xmlfiles := a.namelist.filter (fun s => strContains s productToken)
  if xmlfiles.isEmpty then
    a.namelist.filter (fun s => strContains s (fallbackPattern pathname))
  else
    xmlfiles

/-- Line 52: the granule-list search path. -/
def grnSearchTerm : String := "./*/Product_Info/Product_Organisation/Granule_List/Granules"

/-- Lines 52-57: find the granule elements; when the primary search yields
nothing retry with `search_term[:-1]` (the path minus its final character,
i.e. tag `Granule` instead of `Granules`). -/
def selectGranules (doc : Xml) : List Xml :=
  let grn := doc.findall grnSearchTerm
  if grn.isEmpty then doc.findall (pyDropRight grnSearchTerm 1) else grn

/-- Lines 72-82: locate and parse the granule-level metadata document for
one granule.  Outside the `.zip` branch the document is read from
`pathname.parent / 'GRANULE' / gran_id / (gran_id[:-7].replace('MSI','MTD') + '.xml')`;
in the `.zip` branch the archive members are searched for `MTD_TL.xml`, falling
back to `gran_id.replace('MSI','MTD').replace('_N' + processing_baseline, '.xml')`
as a substring pattern. -/
def granuleDocOf (env : Env) (a : Archive) (pathname : String)
    (processingBaseline : Option String) (granId : Option String) : Except PyError Xml :=
  if pathSuffix pathname = ".zip" then
    let xmlzipfiles := a.namelist.filter (fun s => strContains s "MTD_TL.xml")
    match (if xmlzipfiles.isEmpty then
            match granId with
            | none => Except.error PyError.attributeError
            | some gid =>
              match processingBaseline with
              | none => Except.error PyError.typeError
              | some bl =>
                let pattern := pyReplace gid "MSI" "MTD"
                let pattern := pyReplace pattern ("_N" ++ bl) ".xml"
                Except.ok (a.namelist.filter (fun s => strContains s pattern))
          else Except.ok xmlzipfiles : Except PyError (List String)) with
    | .error e => .error e
    | .ok files =>
      match files.head? with
      | none => .error .indexError
      | some fn =>
        match a.read fn with
        | none => .error .parseError
        | some root => .ok root
  else
    match granId with
    | none => .error .typeError
    | some gid =>
      let granPath :=
        pathJoin (pathJoin (pathJoin (pathParent pathname) "GRANULE") gid)
          (pyReplace (pyDropRight gid 7) "MSI" "MTD" ++ ".xml")
      match env.readXml granPath with
      | none => .error .parseError
      | some root => .ok root

/-- Lines 68-86: the per-granule loop building `results`. -/
def granMdLoop (env : Env) (a : Archive) (pathname : String)
    (processingBaseline : Option String) : List Xml → GranMd → Except PyError GranMd
  | [], acc => .ok acc
  | g :: rest, acc =>
    let granId := g.attr "granuleIdentifier"
    match granuleDocOf env a pathname processingBaseline granId with
    | .error e => .error e
    | .ok root =>
      match (root.findall "./*/SENSING_TIME").head? with
      | none => .error .indexError
      | some el =>
        match el.text with
        | none => .error .typeError
        | some sensing =>
          match env.dateParse sensing with
          | none => .error .parseError
          | some dt => granMdLoop env a pathname processingBaseline rest (dictInsert granId dt acc)

/-- Lines 52-86: everything done with the parsed product document —
granule-element selection (with the two-tier retry), the dead
`IMAGE_ID`/`IMAGE_FILE` tag probe, the processing-baseline lookup, and the
granule loop. -/
def productStage (env : Env) (pathname : String) (a : Archive) (doc : Xml) :
    Except PyError GranMd :=
  match (selectGranules doc).head? with
  | none => .error .indexError
  | some firstGran =>
    let _imageTagChoice :=
      if pyTruthy (firstGran.findtext "IMAGE_ID") then "IMAGE_ID" else "IMAGE_FILE"
    match (doc.findall "./*/Product_Info/PROCESSING_BASELINE").head? with
    | none => .error .indexError
    | some blElem =>
      granMdLoop env a pathname blElem.text (selectGranules doc) []

/-- The continuation of `get_archive_metadata` once a product-metadata
member name has been chosen (lines 49-86): read and parse it, then run the
product stage.  A direct token match and a fallback-pattern match both feed
the chosen name through exactly this function. -/
def processNamed (env : Env) (pathname : String) (a : Archive) (fn : String) :
    Except PyError GranMd :=
  match a.read fn with
  | none => .error .parseError
  | some doc => productStage env pathname a doc

/-- Translation of `get_archive_metadata` (lines 32-86). -/
def get_archive_metadata (env : Env) (pathname : String) : Except PyError GranMd :=
  match env.openZip pathname with
  | none => .error .badZipFile
  | some a =>
    match (locateProductFiles a pathname).head? with
    | none => .error .indexError
    | some fn => processNamed env pathname a fn

/-! ## `filter_granule` / `filter_granules` (filter.py lines 89-138) -/

/-- The log calls made by `filter_granule`, in order. -/
inductive LogEvent where
  | warnUnexpected (dataset : String)
  | infoOutsideAOI (granule : String) (tile : String)
  | debugAlreadyProcessed (granule : String)
  | infoNeedsProcessing (dataset : String)
deriving DecidableEq, Repr

/-- The accumulator threaded through the filter: the worklist out-stream
(one written line per entry), the running granule count, plus the recorded
package-locator invocations and log calls. -/
structure FilterState where
  stream : List String
  count : Nat
  queries : List (String × String × String)
  logs : List LogEvent
deriving DecidableEq, Repr

/-- Line 118: `granule.split('_')[-2]` — the second-to-last
underscore-delimited token; `none` models the `IndexError` raised when the
identifier has no underscore. -/
def tileOf (granule : String) : Option String :=
  ((pySplit granule '_').reverse).get? 1

/-- Lines 117-137: the `for granule, sensing_date in granule_md.items()`
loop.  Every iteration either `return`s, raises, or `break`s, so the items
after the first are never examined; `n` is `len(granule_md.keys())`. -/
def granuleLoop (env : Env) (level1 : String) (goodTileIds : List String)
    (pkgdir : String) (n : Nat) (st : FilterState) :
    GranMd → Except (PyError × FilterState) FilterState
  | [] => .ok st
  | (granId, sensing) :: _rest =>
    match granId with
    | none => .error (.attributeError, st)
    | some granule =>
      match tileOf granule with
      | none => .error (.indexError, st)
      | some tileId =>
        if goodTileIds.contains tileId then
          let ymd := sensing.ymd
          let pkg := pathJoin pkgdir ymd
          let st1 := { st with queries := st.queries ++ [(level1, granule, pkg)] }
          if env.packageExists level1 granule pkg then
            .ok { st1 with logs := st1.logs ++ [.debugAlreadyProcessed granule] }
          else
            .ok { st1 with
                  logs := st1.logs ++ [.infoNeedsProcessing level1],
                  stream := st1.stream ++ [level1],
                  count := st1.count + n }
        else
          .ok { st with logs := st.logs ++ [.infoOutsideAOI granule tileId] }

/-- Translation of `filter_granule` (lines 103-138).  Only the `acquisitions(...)` call is
inside a `try/except`; a failure of `get_archive_metadata` (line 115)
escapes as an uncaught exception carrying the state reached so far. -/
def filter_granule (env : Env) (st : FilterState) (level1 : String)
    (goodTileIds : List String) (pkgdir : String) :
    Except (PyError × FilterState) FilterState :=
  if env.acquisitionsOk level1 then
    match get_archive_metadata env level1 with
    | .error e => .error (e, st)
    | .ok granuleMd =>
      granuleLoop env level1 goodTileIds pkgdir granuleMd.length st granuleMd
  else
    .ok { st with logs := st.logs ++ [.warnUnexpected level1] }

/-- Translation of `filter_granules` (lines 89-101): fold `filter_granule` over the batch
in input order. -/
def filter_granules (env : Env) (st : FilterState) (rawZips : List String)
    (goodTileIds : List String) (pkgdir : String) :
    Except (PyError × FilterState) FilterState :=
  match rawZips with
  | [] => .ok st
  | d :: rest =>
    match filter_granule env st d goodTileIds pkgdir with
    | .error e => .error e
    | .ok st1 => filter_granules env st1 rest goodTileIds pkgdir

/-- The state a filter run reaches, whether it returns or raises. -/
def stateOf : Except (PyError × FilterState) FilterState → FilterState
  | .ok st => st
  | .error (_, st) => st

/-- The per-dataset acceptance decision `filter_granule` implements: the
acquisition open succeeds, extraction succeeds, the first granule of the
mapping has a well-formed identifier whose tile code is in the region of
interest, and the package locator reports no existing output. -/
def accepts (env : Env) (goodTileIds : List String) (pkgdir : String)
    (level1 : String) : Bool :=
  env.acquisitionsOk level1 &&
    match get_archive_metadata env level1 with
    | .error _ => false
    | .ok [] => false
    | .ok ((none, _) :: _) => false
    | .ok ((some granule, sensing) :: _) =>
      match tileOf granule with
      | none => false
      | some tileId =>
        goodTileIds.contains tileId &&
          !env.packageExists level1 granule (pathJoin pkgdir sensing.ymd)

/-! ## Concrete fixtures used by the witnesses and counterexamples -/

/-- A granule-level metadata document carrying one sensing time. -/
def tlDoc (sensing : String) : Xml :=
  .node "Level-1C_Tile" [] none
    [.node "General_Info" [] none
      [.node "SENSING_TIME" [] (some sensing) []]]

/-- A granule element of a product document. -/
def granNode (gid : String) (extra : List Xml) : Xml :=
  .node "Granules" [("granuleIdentifier", gid)] none extra

/-- A product-metadata document with the given granule elements. -/
def prodDoc (grans : List Xml) : Xml :=
  .node "Level-1C_User_Product" [] none
    [.node "General_Info" [] none
      [.node "Product_Info" [] none
        [.node "PROCESSING_BASELINE" [] (some "02.04") [],
         .node "Product_Organisation" [] none
           [.node "Granule_List" [] none grans]]]]

/-- A `dateutil.parser.parse` stand-in: keeps the leading `YYYY-MM-DD`. -/
def dateParse10 (s : String) : Option PyDateTime :=
  some ⟨charsToStr (s.data.take 10)⟩

/-- A two-granule archive whose first granule's tile `T55HFA` is in the
fixture region of interest. -/
def archive1 : Archive :=
  ⟨[("a/MTD_MSIL1C.xml",
     some (prodDoc [granNode "S2A_MSI_T55HFA_A1" [], granNode "S2A_MSI_T55HFB_A2" []])),
    ("a/GRANULE/MTD_TL.xml", some (tlDoc "2021-03-01T00:12:00"))]⟩

/-- A two-granule archive whose first granule's tile `T99ZZZ` is outside
the fixture region of interest while the second one's `T55HFA` is inside. -/
def archiveMiss : Archive :=
  ⟨[("a/MTD_MSIL1C.xml",
     some (prodDoc [granNode "S2A_MSI_T99ZZZ_A1" [], granNode "S2A_MSI_T55HFA_A2" []])),
    ("a/GRANULE/MTD_TL.xml", some (tlDoc "2021-03-01T00:12:00"))]⟩

/-- The main fixture environment: `d1.zip` and `d3.zip` are the accepted
archive, `d2.zip` opens as an archive with no members at all (so locating
its product metadata fails), `dm.zip` is the tile-miss archive, and the
acquisition open fails for `dx.zip`. -/
def env1 : Env :=
  { openZip := fun p =>
      if p = "d1.zip" then some archive1
      else if p = "d2.zip" then some ⟨[]⟩
      else if p = "d3.zip" then some archive1
      else if p = "dm.zip" then some archiveMiss
      else none,
    readXml := fun _ => none,
    dateParse := dateParse10,
    acquisitionsOk := fun d => d != "dx.zip",
    packageExists := fun _ _ _ => false }

/-- The fixture region of interest. -/
def roi1 : List String := ["T55HFA"]

/-- The empty filter accumulator every run starts from. -/
def st0 : FilterState := ⟨[], 0, [], []⟩


/-- The product document used by the fallback-search fixture. -/
def prodDocF : Xml := prodDoc [granNode "S2A_MSI_T55HFA_A1" []]

/-- An archive whose product-metadata member name does not contain the
canonical token `MTD_MSIL1C.xml` but does match the name derived from the
archive's own base name by the `PRD_MSIL1C` to `MTD_SAFL1C` / `.zip` to
`.xml` substitutions. -/
def archiveF : Archive :=
  ⟨[("S2A_OPER_MTD_SAFL1C_x.xml", some prodDocF),
    ("GRANULE/MTD_TL.xml", some (tlDoc "2021-03-01T00:12:00"))]⟩

/-- Environment for the fallback-search fixture. -/
def envF : Env :=
  { openZip := fun p =>
      if p = "dir/S2A_OPER_PRD_MSIL1C_x.zip" then some archiveF else none,
    readXml := fun _ => none,
    dateParse := dateParse10,
    acquisitionsOk := fun _ => true,
    packageExists := fun _ _ _ => false }

/-- The granule identifier of the non-`.zip`-reference fixture. -/
def gid7 : String := "S2A_MSI_T55HFA_A012345"

/-- The granule-document path the code actually reads for `gid7` under the
dataset reference `base/PROD.safe`: it hangs off the reference's parent
directory `base`, with `gid7[:-7]` and `MSI` replaced by `MTD`. -/
def granPath7 : String := "base/GRANULE/S2A_MSI_T55HFA_A012345/S2A_MTD_T55HFA_.xml"

/-- The same layout placed under the dataset root itself (what the spec
describes); the code never reads this path. -/
def rootPath7 : String := "base/PROD.safe/GRANULE/S2A_MSI_T55HFA_A012345/S2A_MTD_T55HFA_.xml"

/-- A single-granule archive for the non-`.zip` reference. -/
def archive7 : Archive := ⟨[("stuff/MTD_MSIL1C.xml", some (prodDoc [granNode gid7 []]))]⟩

/-- Environment for the non-`.zip`-reference fixture: the reference
`base/PROD.safe` still opens as a zip archive, and the filesystem holds the
granule document only at the parent-based path `granPath7`. -/
def env7 : Env :=
  { openZip := fun p => if p = "base/PROD.safe" then some archive7 else none,
    readXml := fun q => if q = granPath7 then some (tlDoc "2021-03-01T00:12:00") else none,
    dateParse := dateParse10,
    acquisitionsOk := fun _ => true,
    packageExists := fun _ _ _ => false }

/-- An archive whose product document has an empty `Granule_List`: neither
the `Granules` tier nor the `Granule` retry finds any element. -/
def archive8 : Archive := ⟨[("a/MTD_MSIL1C.xml", some (prodDoc []))]⟩

/-- Environment for the empty-granule-list fixture. -/
def env8 : Env :=
  { openZip := fun p => if p = "d8.zip" then some archive8 else none,
    readXml := fun _ => none,
    dateParse := dateParse10,
    acquisitionsOk := fun _ => true,
    packageExists := fun _ _ _ => false }

/-! ## The granule-image-identity relation for the independence claim

Extraction reads, of the product document, only the granule elements'
`granuleIdentifier` attributes, the emptiness of the two granule-list
lookups, and the processing-baseline text; the `IMAGE_ID` / `IMAGE_FILE`
probe of lines 59-62 feeds a variable that is never used again.  Two
product documents count as "identical except in the granule-image-identity
sub-elements" when deleting the `IMAGE_ID` / `IMAGE_FILE` children of every
element sitting at a granule position (a child of a node reached by the
`./*/Product_Info/Product_Organisation/Granule_List` path) makes them
equal. -/

/-- Is this one of the two granule-image-identity sub-elements? -/
def isImgTag (x : Xml) : Bool := x.tag == "IMAGE_ID" || x.tag == "IMAGE_FILE"

/-- Delete the image-identity children of a granule element. -/
def scrubGran (g : Xml) : Xml :=
  .node g.tag g.attrs g.text (g.children.filter (fun c => !isImgTag c))

/-- Walk the given steps; at the end of the steps, scrub the image-identity
children of every child (i.e. of every granule-position element). -/
def scrubSteps : List String → Xml → Xml
  | [], x => .node x.tag x.attrs x.text (x.children.map scrubGran)
  | s :: rest, x =>
    .node x.tag x.attrs x.text
      (x.children.map (fun c => if matchStep s c then scrubSteps rest c else c))

/-- The steps leading to the granule-list elements. -/
def granListSteps : List String :=
  ["*", "Product_Info", "Product_Organisation", "Granule_List"]

/-- Two product documents identical except in the granule-image-identity
sub-elements. -/
def prodDocEquivImg (x y : Xml) : Prop :=
  scrubSteps granListSteps x = scrubSteps granListSteps y

/-- A product document with two granules, the first carrying an `IMAGE_ID`
child. -/
def doc9a : Xml :=
  prodDoc [granNode "S2A_MSI_T55HFA_A1" [.node "IMAGE_ID" [] (some "IMG_A") []],
           granNode "S2A_MSI_T55HFB_A2" []]

/-- The same document except the first granule carries an `IMAGE_FILE`
child with different content instead. -/
def doc9b : Xml :=
  prodDoc [granNode "S2A_MSI_T55HFA_A1"
             [.node "IMAGE_FILE" [] (some "other/path.jp2") []],
           granNode "S2A_MSI_T55HFB_A2" []]

/-- An archive used to exercise the two image-tag variants. -/
def archive9 : Archive :=
  ⟨[("a/MTD_MSIL1C.xml", some doc9a),
    ("a/GRANULE/MTD_TL.xml", some (tlDoc "2021-03-01T00:12:00"))]⟩

/-- Environment for the image-tag-independence fixture. -/
def env9 : Env :=
  { openZip := fun p => if p = "d9.zip" then some archive9 else none,
    readXml := fun _ => none,
    dateParse := dateParse10,
    acquisitionsOk := fun _ => true,
    packageExists := fun _ _ _ => false }


example : strContains "a/MTD_MSIL1C.xml" "MTD_MSIL1C.xml" = true := by decide
example : strContains "a/MTDMSIL1C.xml" "MTD_MSIL1C.xml" = false := by decide
example : pyReplace "S2A_PRD_MSIL1C_x.zip" "PRD_MSIL1C" "MTD_SAFL1C" = "S2A_MTD_SAFL1C_x.zip" := by decide
example : pySplit "a_b_T55HFA_c" '_' = ["a", "b", "T55HFA", "c"] := by decide
example : basename "dir/sub/f.zip" = "f.zip" := by decide
example : pathSuffix "dir/f.tar.zip" = ".zip" := by decide
example : pathSuffix "dir/noext" = "" := by decide
example : pathParent "base/PROD.safe" = "base" := by decide
example : pathJoin "pkg" "2021-03-01" = "pkg/2021-03-01" := by decide
example : pyDropRight "abcdefghij" 7 = "abc" := by decide

/-! ## Claim theorems -/

/-- C2: a dataset whose first extracted granule has a tile code outside the
region of interest is rejected immediately: nothing is written, the count
and the locator-query log are unchanged, the function returns normally, and
the remaining granules (`rest`, arbitrary here) are never examined and the
package locator is never consulted. -/
theorem first_tile_miss_rejects_dataset (env : Env) (st : FilterState)
    (level1 : String) (goodTileIds : List String) (pkgdir : String)
    (g : String) (dt : PyDateTime) (rest : GranMd) (t : String)
    (hacq : env.acquisitionsOk level1 = true)
    (hmd : get_archive_metadata env level1 = .ok ((some g, dt) :: rest))
    (ht : tileOf g = some t)
    (hroi : goodTileIds.contains t = false) :
    filter_granule env st level1 goodTileIds pkgdir =
      .ok { st with logs := st.logs ++ [.infoOutsideAOI g t] } := by
  have hroi' : t ∉ goodTileIds := by simpa using hroi
  simp [filter_granule, hacq, hmd, granuleLoop, ht, hroi']

/-- C2 witness: the spec's synthetic example — first granule tile `T99ZZZ`
outside ROI `{T55HFA}`, second granule inside — is excluded with no write,
no count, no locator query. -/
theorem first_tile_miss_rejects_dataset_witness :
    filter_granule env1 st0 "dm.zip" roi1 "pkg" =
      .ok { st0 with logs := st0.logs ++ [.infoOutsideAOI "S2A_MSI_T99ZZZ_A1" "T99ZZZ"] } :=
  first_tile_miss_rejects_dataset env1 st0 "dm.zip" roi1 "pkg"
    "S2A_MSI_T99ZZZ_A1" ⟨"2021-03-01"⟩ [(some "S2A_MSI_T55HFA_A2", ⟨"2021-03-01"⟩)]
    "T99ZZZ" rfl rfl rfl rfl

/-- C3: an accepted dataset is appended to the worklist and the running
count increases by the size of the full extracted mapping
(`rest.length + 1`), not 1; the granules after the first are not examined
(the conclusion does not depend on the contents of `rest`). -/
theorem accepted_dataset_adds_full_granule_count (env : Env) (st : FilterState)
    (level1 : String) (goodTileIds : List String) (pkgdir : String)
    (g : String) (dt : PyDateTime) (rest : GranMd) (t : String)
    (hacq : env.acquisitionsOk level1 = true)
    (hmd : get_archive_metadata env level1 = .ok ((some g, dt) :: rest))
    (ht : tileOf g = some t)
    (hroi : goodTileIds.contains t = true)
    (hex : env.packageExists level1 g (pathJoin pkgdir dt.ymd) = false) :
    filter_granule env st level1 goodTileIds pkgdir =
      .ok { stream := st.stream ++ [level1],
            count := st.count + (rest.length + 1),
            queries := st.queries ++ [(level1, g, pathJoin pkgdir dt.ymd)],
            logs := st.logs ++ [.infoNeedsProcessing level1] } := by
  have hroi' : t ∈ goodTileIds := by simpa using hroi
  simp [filter_granule, hacq, hmd, granuleLoop, ht, hroi', hex]

/-- C3 witness: the two-granule fixture archive contributes exactly 2 to
the count when accepted. -/
theorem accepted_dataset_adds_full_granule_count_witness :
    filter_granule env1 st0 "d1.zip" roi1 "pkg" =
      .ok { stream := ["d1.zip"], count := 2,
            queries := [("d1.zip", "S2A_MSI_T55HFA_A1", "pkg/2021-03-01")],
            logs := [.infoNeedsProcessing "d1.zip"] } :=
  accepted_dataset_adds_full_granule_count env1 st0 "d1.zip" roi1 "pkg"
    "S2A_MSI_T55HFA_A1" ⟨"2021-03-01"⟩ [(some "S2A_MSI_T55HFB_A2", ⟨"2021-03-01"⟩)]
    "T55HFA" rfl rfl rfl rfl rfl

/-- C4: starting from an empty query log, one `filter_granule` evaluation
invokes the package locator's existence check at most once, and any query
made is for the first granule of the extracted mapping, is only made when
that granule's tile code is in the region of interest, and is the only one
whether the check reports existing or not (this covers raising runs too,
via `stateOf`). -/
theorem package_check_at_most_once (env : Env) (st : FilterState)
    (level1 : String) (goodTileIds : List String) (pkgdir : String)
    (hq : st.queries = []) :
    (stateOf (filter_granule env st level1 goodTileIds pkgdir)).queries.length ≤ 1 ∧
    ∀ q ∈ (stateOf (filter_granule env st level1 goodTileIds pkgdir)).queries,
      ∃ g dt rest t,
        get_archive_metadata env level1 = .ok ((some g, dt) :: rest) ∧
        tileOf g = some t ∧ goodTileIds.contains t = true ∧
        q = (level1, g, pathJoin pkgdir dt.ymd) := by
  cases hacq : env.acquisitionsOk level1 with
  | false => simp [filter_granule, hacq, stateOf, hq]
  | true =>
    cases hmd : get_archive_metadata env level1 with
    | error e => simp [filter_granule, hacq, hmd, stateOf, hq]
    | ok md =>
      match md with
      | [] => simp [filter_granule, hacq, hmd, granuleLoop, stateOf, hq]
      | (none, dt) :: rest => simp [filter_granule, hacq, hmd, granuleLoop, stateOf, hq]
      | (some g, dt) :: rest =>
        cases ht : tileOf g with
        | none => simp [filter_granule, hacq, hmd, granuleLoop, ht, stateOf, hq]
        | some t =>
          by_cases hmem : t ∈ goodTileIds
          · cases hex : env.packageExists level1 g (pathJoin pkgdir dt.ymd) with
            | false =>
              refine ⟨?_, ?_⟩
              · simp [filter_granule, hacq, hmd, granuleLoop, ht, hmem, hex, stateOf, hq]
              · simp [filter_granule, hacq, hmd, granuleLoop, ht, hmem, hex, stateOf, hq]
                exact ⟨g, dt, ⟨rfl, rfl⟩, t, ht, hmem, rfl, rfl⟩
            | true =>
              refine ⟨?_, ?_⟩
              · simp [filter_granule, hacq, hmd, granuleLoop, ht, hmem, hex, stateOf, hq]
              · simp [filter_granule, hacq, hmd, granuleLoop, ht, hmem, hex, stateOf, hq]
                exact ⟨g, dt, ⟨rfl, rfl⟩, t, ht, hmem, rfl, rfl⟩
          · simp [filter_granule, hacq, hmd, granuleLoop, ht, hmem, stateOf, hq]

/-- C4 witness: the accepted fixture dataset issues at most one query. -/
theorem package_check_at_most_once_witness :
    (stateOf (filter_granule env1 st0 "d1.zip" roi1 "pkg")).queries.length ≤ 1 :=
  (package_check_at_most_once env1 st0 "d1.zip" roi1 "pkg" rfl).1

/-- C10: one evaluation of the per-dataset decision procedure writes the
dataset reference to the worklist either zero times or exactly once, never
more — also when the evaluation raises. -/
theorem dataset_written_at_most_once (env : Env) (st : FilterState)
    (level1 : String) (goodTileIds : List String) (pkgdir : String) :
    (stateOf (filter_granule env st level1 goodTileIds pkgdir)).stream = st.stream ∨
    (stateOf (filter_granule env st level1 goodTileIds pkgdir)).stream =
      st.stream ++ [level1] := by
  cases hacq : env.acquisitionsOk level1 with
  | false => left; simp [filter_granule, hacq, stateOf]
  | true =>
    cases hmd : get_archive_metadata env level1 with
    | error e => left; simp [filter_granule, hacq, hmd, stateOf]
    | ok md =>
      match md with
      | [] => left; simp [filter_granule, hacq, hmd, granuleLoop, stateOf]
      | (none, dt) :: rest => left; simp [filter_granule, hacq, hmd, granuleLoop, stateOf]
      | (some g, dt) :: rest =>
        cases ht : tileOf g with
        | none => left; simp [filter_granule, hacq, hmd, granuleLoop, ht, stateOf]
        | some t =>
          by_cases hmem : t ∈ goodTileIds
          · cases hex : env.packageExists level1 g (pathJoin pkgdir dt.ymd) with
            | false => right; simp [filter_granule, hacq, hmd, granuleLoop, ht, hmem, hex, stateOf]
            | true => left; simp [filter_granule, hacq, hmd, granuleLoop, ht, hmem, hex, stateOf]
          · left; simp [filter_granule, hacq, hmd, granuleLoop, ht, hmem, stateOf]

/-- Counterexample to C1: a batch of three datasets in which the Metadata
Extractor fails on the second one (its archive has no members, so locating
the product metadata raises the line-49 `IndexError`).  `filter_granules`
does not return normally with datasets 1 and 3 in the worklist: the
exception escapes (only the `acquisitions` call of line 109 is inside the
`try`, not `get_archive_metadata` on line 115), aborting the batch with
only dataset 1 written. -/
theorem extraction_error_escapes_filter_cex :
    filter_granules env1 st0 ["d1.zip", "d2.zip", "d3.zip"] roi1 "pkg" =
      .error (.indexError,
        ⟨["d1.zip"], 2, [("d1.zip", "S2A_MSI_T55HFA_A1", "pkg/2021-03-01")],
         [.infoNeedsProcessing "d1.zip"]⟩) := rfl

/-- C1 as amended: a failure of the acquisition open step is caught — a
warning is logged, the dataset is skipped uncounted and unwritten, and the
batch continues with the remaining datasets — but a failure of the
Metadata Extractor itself is not caught: it propagates out of
`filter_granule` (and hence aborts `filter_granules`). -/
theorem acquisition_skip_and_extraction_propagation (env : Env)
    (st : FilterState) (level1 : String) (goodTileIds : List String)
    (pkgdir : String) :
    (env.acquisitionsOk level1 = false →
      filter_granule env st level1 goodTileIds pkgdir =
        .ok { st with logs := st.logs ++ [.warnUnexpected level1] }) ∧
    (∀ e, env.acquisitionsOk level1 = true →
      get_archive_metadata env level1 = .error e →
      filter_granule env st level1 goodTileIds pkgdir = .error (e, st)) ∧
    (∀ rest, env.acquisitionsOk level1 = false →
      filter_granules env st (level1 :: rest) goodTileIds pkgdir =
        filter_granules env { st with logs := st.logs ++ [.warnUnexpected level1] }
          rest goodTileIds pkgdir) := by
  refine ⟨fun hacq => ?_, fun e hacq hmd => ?_, fun rest hacq => ?_⟩
  · simp [filter_granule, hacq]
  · simp [filter_granule, hacq, hmd]
  · simp [filter_granules, filter_granule, hacq]

/-- C1 amended witness: the fixture's `dx.zip` has a failing acquisition
open and is skipped with a logged warning, while `d2.zip`'s extraction
failure propagates as an uncaught error. -/
theorem acquisition_skip_and_extraction_propagation_witness :
    filter_granule env1 st0 "dx.zip" roi1 "pkg" =
      .ok { st0 with logs := st0.logs ++ [.warnUnexpected "dx.zip"] } ∧
    filter_granule env1 st0 "d2.zip" roi1 "pkg" = .error (.indexError, st0) :=
  ⟨(acquisition_skip_and_extraction_propagation env1 st0 "dx.zip" roi1 "pkg").1 rfl,
   (acquisition_skip_and_extraction_propagation env1 st0 "d2.zip" roi1 "pkg").2.1
     PyError.indexError rfl rfl⟩

/-- One `filter_granule` evaluation that returns normally appends the
dataset to the stream exactly when `accepts` holds for it. -/
theorem filter_granule_stream_spec (env : Env) (st : FilterState)
    (level1 : String) (goodTileIds : List String) (pkgdir : String)
    (res : FilterState)
    (h : filter_granule env st level1 goodTileIds pkgdir = .ok res) :
    res.stream = st.stream ++
      (if accepts env goodTileIds pkgdir level1 then [level1] else []) := by
  cases hacq : env.acquisitionsOk level1 with
  | false =>
    simp [filter_granule, hacq] at h
    simp [← h, accepts, hacq]
  | true =>
    cases hmd : get_archive_metadata env level1 with
    | error e => simp [filter_granule, hacq, hmd] at h
    | ok md =>
      match md with
      | [] =>
        simp [filter_granule, hacq, hmd, granuleLoop] at h
        simp [← h, accepts, hacq, hmd]
      | (none, dt) :: rest =>
        simp [filter_granule, hacq, hmd, granuleLoop] at h
      | (some g, dt) :: rest =>
        cases ht : tileOf g with
        | none => simp [filter_granule, hacq, hmd, granuleLoop, ht] at h
        | some t =>
          by_cases hmem : t ∈ goodTileIds
          · cases hex : env.packageExists level1 g (pathJoin pkgdir dt.ymd) with
            | false =>
              simp [filter_granule, hacq, hmd, granuleLoop, ht, hmem, hex] at h
              simp [← h, accepts, hacq, hmd, ht, hmem, hex]
            | true =>
              simp [filter_granule, hacq, hmd, granuleLoop, ht, hmem, hex] at h
              simp [← h, accepts, hacq, hmd, ht, hmem, hex]
          · simp [filter_granule, hacq, hmd, granuleLoop, ht, hmem] at h
            simp [← h, accepts, hacq, hmd, ht, hmem]

/-- C5: when a batch run returns normally, the worklist is exactly the
input order's accepted subsequence: the datasets satisfying the
per-dataset acceptance decision, in input order, appended one at a time as
each dataset is decided. -/
theorem worklist_matches_input_order (env : Env) (st : FilterState)
    (rawZips : List String) (goodTileIds : List String) (pkgdir : String)
    (res : FilterState)
    (h : filter_granules env st rawZips goodTileIds pkgdir = .ok res) :
    res.stream = st.stream ++ rawZips.filter (accepts env goodTileIds pkgdir) := by
  induction rawZips generalizing st with
  | nil =>
    simp [filter_granules] at h
    simp [← h]
  | cons d rest ih =>
    rw [filter_granules] at h
    cases hfg : filter_granule env st d goodTileIds pkgdir with
    | error e => rw [hfg] at h; exact absurd h (by simp)
    | ok st1 =>
      rw [hfg] at h
      have hs := filter_granule_stream_spec env st d goodTileIds pkgdir st1 hfg
      rw [ih st1 h, hs, List.filter_cons]
      by_cases ha : accepts env goodTileIds pkgdir d <;> simp [ha]

/-- C5 witness: a batch with an acquisition-skipped dataset in the middle
yields the accepted datasets in input order. -/
theorem worklist_matches_input_order_witness :
    (⟨["d1.zip", "d3.zip"], 4,
      [("d1.zip", "S2A_MSI_T55HFA_A1", "pkg/2021-03-01"),
       ("d3.zip", "S2A_MSI_T55HFA_A1", "pkg/2021-03-01")],
      [.infoNeedsProcessing "d1.zip", .warnUnexpected "dx.zip",
       .infoNeedsProcessing "d3.zip"]⟩ : FilterState).stream =
      st0.stream ++ ["d1.zip", "dx.zip", "d3.zip"].filter (accepts env1 roi1 "pkg") :=
  worklist_matches_input_order env1 st0 ["d1.zip", "dx.zip", "d3.zip"] roi1 "pkg" _ rfl

/-- C6: when no archive member name contains the canonical token
`MTD_MSIL1C.xml` but some member name contains the pattern derived from
the archive's base name (`PRD_MSIL1C` replaced by `MTD_SAFL1C` and `.zip`
replaced by `.xml`), extraction continues with the first such member
through `processNamed` — by definition of `get_archive_metadata`, the very
continuation a direct token match on that member would take, so it
produces the same granule-to-sensing-time mapping a direct match would. -/
theorem fallback_pattern_search_succeeds (env : Env) (p : String)
    (a : Archive) (m : String)
    (hopen : env.openZip p = some a)
    (hdirect : a.namelist.filter (fun s => strContains s productToken) = [])
    (hfb : (a.namelist.filter (fun s => strContains s (fallbackPattern p))).head? = some m) :
    get_archive_metadata env p = processNamed env p a m := by
  simp [get_archive_metadata, hopen, locateProductFiles, hdirect, hfb]

/-- C6 witness: on the fixture archive, whose product document sits in the
member `S2A_OPER_MTD_SAFL1C_x.xml` matched only by the derived pattern,
extraction succeeds with the expected mapping. -/
theorem fallback_pattern_search_succeeds_witness :
    get_archive_metadata envF "dir/S2A_OPER_PRD_MSIL1C_x.zip" =
      .ok [(some "S2A_MSI_T55HFA_A1", ⟨"2021-03-01"⟩)] :=
  (fallback_pattern_search_succeeds envF "dir/S2A_OPER_PRD_MSIL1C_x.zip" archiveF
      "S2A_OPER_MTD_SAFL1C_x.xml" rfl rfl rfl).trans rfl

/-- Counterexample to C7: for the non-`.zip` dataset reference
`base/PROD.safe`, the granule-level document is read from
`base/GRANULE/...` — a path under the PARENT of the reference — and not
from `base/PROD.safe/GRANULE/...` under the dataset root: the fixture
filesystem has nothing at the root-based path (nor any product document on
the filesystem at all — the primary document still comes from opening the
reference itself as a zip archive), yet extraction succeeds. -/
theorem granule_doc_parent_dir_cex :
    pathSuffix "base/PROD.safe" = ".safe" ∧
    env7.readXml rootPath7 = none ∧
    env7.readXml granPath7 = some (tlDoc "2021-03-01T00:12:00") ∧
    get_archive_metadata env7 "base/PROD.safe" = .ok [(some gid7, ⟨"2021-03-01"⟩)] ∧
    granPath7 ≠ rootPath7 :=
  ⟨rfl, rfl, rfl, rfl, by decide⟩

/-- C7 as amended: for a dataset reference whose suffix is not `.zip`
(the reference is still opened as a compressed archive — `openZip`
failing, as it does on a real directory, fails the whole extraction), each
granule's metadata document is read from
`GRANULE/<granule_id>/<transformed_id>.xml` under the PARENT directory of
the reference, where `transformed_id` drops the last 7 characters of
`granule_id` and replaces `MSI` with `MTD`. -/
theorem granule_doc_path_formula (env : Env) (a : Archive) (p : String)
    (bl : Option String) (gid : String)
    (hsuf : pathSuffix p ≠ ".zip") :
    granuleDocOf env a p bl (some gid) =
      (match env.readXml (pathJoin (pathJoin (pathJoin (pathParent p) "GRANULE") gid)
          (pyReplace (pyDropRight gid 7) "MSI" "MTD" ++ ".xml")) with
       | none => Except.error PyError.parseError
       | some root => Except.ok root) ∧
    (env.openZip p = none → get_archive_metadata env p = .error .badZipFile) := by
  constructor
  · simp [granuleDocOf, hsuf]
  · intro hz
    simp [get_archive_metadata, hz]

/-- C7 amended witness: for the fixture reference `base/PROD.safe` the
granule document resolves through the parent-directory layout. -/
theorem granule_doc_path_formula_witness :
    granuleDocOf env7 archive7 "base/PROD.safe" (some "02.04") (some gid7) =
      .ok (tlDoc "2021-03-01T00:12:00") :=
  ((granule_doc_path_formula env7 archive7 "base/PROD.safe" (some "02.04") gid7
      (by decide)).1).trans rfl

/-- A Python dict insertion never shrinks the dict. -/
theorem dictInsert_length_le (k : Option String) (v : PyDateTime) (l : GranMd) :
    l.length ≤ (dictInsert k v l).length := by
  unfold dictInsert
  split <;> simp

/-- The granule loop only ever grows the result mapping. -/
theorem granMdLoop_length_le (env : Env) (a : Archive) (p : String)
    (bl : Option String) :
    ∀ (gs : List Xml) (acc r : GranMd),
      granMdLoop env a p bl gs acc = .ok r → acc.length ≤ r.length := by
  intro gs
  induction gs with
  | nil =>
    intro acc r h
    simp [granMdLoop] at h
    simp [← h]
  | cons g rest ih =>
    intro acc r h
    cases hd : granuleDocOf env a p bl (g.attr "granuleIdentifier") with
    | error e => simp [granMdLoop, hd] at h
    | ok root =>
      cases hs : (root.findall "./*/SENSING_TIME").head? with
      | none => simp [granMdLoop, hd, hs] at h
      | some el =>
        cases htx : el.text with
        | none => simp [granMdLoop, hd, hs, htx] at h
        | some sensing =>
          cases hdp : env.dateParse sensing with
          | none => simp [granMdLoop, hd, hs, htx, hdp] at h
          | some dt =>
            simp [granMdLoop, hd, hs, htx, hdp] at h
            exact le_trans (dictInsert_length_le _ _ _) (ih _ _ h)

/-- Counterexample to C8's description of the retry: on a product document
whose `Granule_List` element is present but childless, the primary
granule-list lookup is empty and the lookup at the search path minus its
final path segment (`.../Granule_List`) is non-empty — it finds the list
node itself — yet extraction still fails: the code's actual retry is the
search path minus its final character (tag `Granule`), which finds
nothing here. -/
theorem granule_retry_last_char_cex :
    ((prodDoc []).findall grnSearchTerm).isEmpty = true ∧
    ((prodDoc []).findall "./*/Product_Info/Product_Organisation/Granule_List").isEmpty = false ∧
    get_archive_metadata env8 "d8.zip" = .error .indexError :=
  ⟨rfl, rfl, rfl⟩

/-- C8 as amended: a successful extraction always returns a non-empty
mapping (locating no granule elements is the `IndexError` failure of line
59, never an empty result), and an empty first-tier granule-list lookup is
not itself an error — the extractor retries with the search path minus its
final CHARACTER, i.e. with the child tag `Granule` instead of `Granules`,
before deciding failure. -/
theorem success_nonempty_and_retry_path :
    (∀ (env : Env) (p : String) (md : GranMd),
      get_archive_metadata env p = .ok md → md ≠ []) ∧
    (∀ doc : Xml, (doc.findall grnSearchTerm).isEmpty = true →
      selectGranules doc = doc.findall (pyDropRight grnSearchTerm 1)) ∧
    pyDropRight grnSearchTerm 1 =
      "./*/Product_Info/Product_Organisation/Granule_List/Granule" := by
  refine ⟨?_, ?_, rfl⟩
  · intro env p md h
    cases hz : env.openZip p with
    | none => simp [get_archive_metadata, hz] at h
    | some a =>
      cases hl : (locateProductFiles a p).head? with
      | none => simp [get_archive_metadata, hz, hl] at h
      | some fn =>
        cases hr : a.read fn with
        | none => simp [get_archive_metadata, processNamed, hz, hl, hr] at h
        | some doc =>
          have h2 : productStage env p a doc = .ok md := by
            simpa [get_archive_metadata, processNamed, hz, hl, hr] using h
          cases hg : (selectGranules doc).head? with
          | none => simp [productStage, hg] at h2
          | some firstGran =>
            cases hb : (doc.findall "./*/Product_Info/PROCESSING_BASELINE").head? with
            | none => simp [productStage, hg, hb] at h2
            | some blElem =>
              have h3 : granMdLoop env a p blElem.text (selectGranules doc) [] = .ok md := by
                simpa [productStage, hg, hb] using h2
              obtain ⟨gs, hsel⟩ : ∃ gs, selectGranules doc = firstGran :: gs := by
                cases hsel2 : selectGranules doc with
                | nil => rw [hsel2] at hg; simp at hg
                | cons x xs =>
                  rw [hsel2] at hg
                  simp at hg
                  exact ⟨xs, by rw [hg]⟩
              rw [hsel] at h3
              cases hd : granuleDocOf env a p blElem.text (firstGran.attr "granuleIdentifier") with
              | error e => simp [granMdLoop, hd] at h3
              | ok root =>
                cases hs : (root.findall "./*/SENSING_TIME").head? with
                | none => simp [granMdLoop, hd, hs] at h3
                | some el =>
                  cases htx : el.text with
                  | none => simp [granMdLoop, hd, hs, htx] at h3
                  | some sensing =>
                    cases hdp : env.dateParse sensing with
                    | none => simp [granMdLoop, hd, hs, htx, hdp] at h3
                    | some dt =>
                      simp only [granMdLoop, hd, hs, htx, hdp] at h3
                      have hlen := granMdLoop_length_le env a p blElem.text gs _ _ h3
                      have h1 : 1 ≤ md.length := by
                        refine le_trans ?_ hlen
                        simp [dictInsert]
                      intro hnil
                      rw [hnil] at h1
                      simp at h1
  · intro doc hEmpty
    simp [selectGranules, hEmpty]

/-- C8 amended witness: the fixture two-granule extraction result is
non-empty, checked by applying the non-emptiness part at `d1.zip`. -/
theorem success_nonempty_and_retry_path_witness :
    ([(some "S2A_MSI_T55HFA_A1", (⟨"2021-03-01"⟩ : PyDateTime)),
      (some "S2A_MSI_T55HFB_A2", ⟨"2021-03-01"⟩)] : GranMd) ≠ [] :=
  success_nonempty_and_retry_path.1 env1 "d1.zip" _ rfl

/-- Scrubbing a granule element preserves its tag. -/
theorem scrubGran_tag (g : Xml) : (scrubGran g).tag = g.tag := rfl

/-- Scrubbing along steps preserves the tag. -/
theorem scrubSteps_tag (steps : List String) (x : Xml) :
    (scrubSteps steps x).tag = x.tag := by
  cases steps <;> rfl

/-- Step matching is insensitive to granule scrubbing. -/
theorem matchStep_scrubGran (s : String) (c : Xml) :
    matchStep s (scrubGran c) = matchStep s c := rfl

/-- Step matching is insensitive to path scrubbing. -/
theorem matchStep_scrubSteps (s : String) (steps : List String) (c : Xml) :
    matchStep s (scrubSteps steps c) = matchStep s c := by
  simp [matchStep, scrubSteps_tag]

/-- Filtering for a step commutes with scrubbing the matching children. -/
theorem filterMap_matchStep (s : String) (rest : List String) (l : List Xml) :
    (l.map (fun c => if matchStep s c then scrubSteps rest c else c)).filter (matchStep s) =
      (l.filter (matchStep s)).map (scrubSteps rest) := by
  induction l with
  | nil => rfl
  | cons c cl ih =>
    by_cases hm : matchStep s c
    · simp [hm, matchStep_scrubSteps, ih]
    · simp [hm, ih]

/-- Filtering for a step commutes with granule scrubbing. -/
theorem filterMap_scrubGran (t : String) (l : List Xml) :
    (l.map scrubGran).filter (matchStep t) = (l.filter (matchStep t)).map scrubGran := by
  induction l with
  | nil => rfl
  | cons c cl ih =>
    by_cases hm : matchStep t c
    · simp [hm, matchStep_scrubGran, ih]
    · simp [hm, matchStep_scrubGran, ih]

/-- Gathering step-`s` children commutes with scrubbing at step `s`. -/
theorem gatherChildren_map_scrubSteps_cons (s : String) (rest : List String)
    (l : List Xml) :
    gatherChildren s (l.map (scrubSteps (s :: rest))) =
      (gatherChildren s l).map (scrubSteps rest) := by
  induction l with
  | nil => rfl
  | cons x xs ih =>
    simp only [List.map_cons, gatherChildren, List.map_append, ih]
    congr 1
    show ((x.children.map (fun c => if matchStep s c then scrubSteps rest c else c)).filter
      (matchStep s)) = (x.children.filter (matchStep s)).map (scrubSteps rest)
    exact filterMap_matchStep s rest x.children

/-- Gathering step-`t` children commutes with end-of-path scrubbing. -/
theorem gatherChildren_map_scrubZero (t : String) (l : List Xml) :
    gatherChildren t (l.map (scrubSteps [])) = (gatherChildren t l).map scrubGran := by
  induction l with
  | nil => rfl
  | cons x xs ih =>
    simp only [List.map_cons, gatherChildren, List.map_append, ih]
    congr 1
    show (x.children.map scrubGran).filter (matchStep t) =
      (x.children.filter (matchStep t)).map scrubGran
    exact filterMap_scrubGran t x.children

/-- Running the scrub path plus one final step over scrubbed documents is
the same as running it over the originals and scrubbing the resulting
granule elements. -/
theorem findallAux_scrub (t : String) :
    ∀ (steps : List String) (l : List Xml),
      findallAux (steps ++ [t]) (l.map (scrubSteps steps)) =
        (findallAux (steps ++ [t]) l).map scrubGran := by
  intro steps
  induction steps with
  | nil =>
    intro l
    simp [findallAux, gatherChildren_map_scrubZero]
  | cons s rest ih =>
    intro l
    simp [findallAux, gatherChildren_map_scrubSteps_cons, ih]

/-- Filtering for a step `b` distinct from both `s` and the wildcard is
insensitive to scrubbing the step-`s` children. -/
theorem filter_matchStep_map_other (b s : String) (rest : List String)
    (hb : b ≠ "*") (hbs : b ≠ s) (hs : s ≠ "*") (l : List Xml) :
    (l.map (fun c => if matchStep s c then scrubSteps rest c else c)).filter (matchStep b) =
      l.filter (matchStep b) := by
  induction l with
  | nil => rfl
  | cons c cl ih =>
    by_cases hm : matchStep s c
    · have htag : c.tag = s := by
        simpa [matchStep, hs] using hm
      have hnb : matchStep b c = false := by
        simp only [matchStep, htag, Bool.or_eq_false_iff, beq_eq_false_iff_ne]
        exact ⟨hb, Ne.symm hbs⟩
      have hnb2 : matchStep b (scrubSteps rest c) = false := by
        rw [matchStep_scrubSteps]; exact hnb
      simp [List.filter_cons, hm, hnb, hnb2, ih]
    · simp [List.filter_cons, hm, ih]

/-- A lookup whose path diverges from the scrub path at tag `b` (before the
scrub path's step `s`) is unaffected by scrubbing. -/
theorem findallAux_scrub_divergent (b s : String) (rest : List String)
    (hb : b ≠ "*") (hbs : b ≠ s) (hs : s ≠ "*") :
    ∀ (shared : List String) (l : List Xml),
      findallAux (shared ++ [b]) (l.map (scrubSteps (shared ++ s :: rest))) =
        findallAux (shared ++ [b]) l := by
  intro shared
  induction shared with
  | nil =>
    intro l
    simp only [List.nil_append, findallAux]
    induction l with
    | nil => rfl
    | cons x xs ihl =>
      simp only [List.map_cons, gatherChildren, ihl]
      congr 1
      show (x.children.map (fun c => if matchStep s c then scrubSteps rest c else c)).filter
        (matchStep b) = x.children.filter (matchStep b)
      exact filter_matchStep_map_other b s rest hb hbs hs x.children
  | cons s0 sh ih =>
    intro l
    simp only [List.cons_append, findallAux, gatherChildren_map_scrubSteps_cons]
    exact ih (gatherChildren s0 l)

/-- The granule loop reads nothing of a granule element beyond its
`granuleIdentifier` attribute. -/
theorem granMdLoop_attr_congr (env : Env) (a : Archive) (p : String)
    (bl : Option String) :
    ∀ (gs1 gs2 : List Xml) (acc : GranMd),
      gs1.map (fun g => g.attr "granuleIdentifier") =
        gs2.map (fun g => g.attr "granuleIdentifier") →
      granMdLoop env a p bl gs1 acc = granMdLoop env a p bl gs2 acc := by
  intro gs1
  induction gs1 with
  | nil =>
    intro gs2 acc h
    cases gs2 with
    | nil => rfl
    | cons y ys => simp at h
  | cons g1 r1 ih =>
    intro gs2 acc h
    cases gs2 with
    | nil => simp at h
    | cons g2 r2 =>
      simp only [List.map_cons, List.cons.injEq] at h
      obtain ⟨h1, h2⟩ := h
      cases hd : granuleDocOf env a p bl (g2.attr "granuleIdentifier") with
      | error e => simp [granMdLoop, h1, hd]
      | ok root =>
        cases hsh : (root.findall "./*/SENSING_TIME").head? with
        | none => simp [granMdLoop, h1, hd, hsh]
        | some el =>
          cases htx : el.text with
          | none => simp [granMdLoop, h1, hd, hsh, htx]
          | some sensing =>
            cases hdp : env.dateParse sensing with
            | none => simp [granMdLoop, h1, hd, hsh, htx, hdp]
            | some dt =>
              simp only [granMdLoop, h1, hd, hsh, htx, hdp]
              exact ih r2 _ h2

/-- The product stage on a document with no granule elements. -/
theorem productStage_nil (env : Env) (p : String) (a : Archive) (doc : Xml)
    (h : selectGranules doc = []) :
    productStage env p a doc = .error .indexError := by
  simp [productStage, h]

/-- The product stage on a document with granule elements. -/
theorem productStage_cons (env : Env) (p : String) (a : Archive) (doc : Xml)
    (g : Xml) (gs : List Xml) (h : selectGranules doc = g :: gs) :
    productStage env p a doc =
      (match (doc.findall "./*/Product_Info/PROCESSING_BASELINE").head? with
       | none => .error .indexError
       | some blElem => granMdLoop env a p blElem.text (g :: gs) []) := by
  simp [productStage, h]

/-- Equal scrub-images give equal granule-identifier sequences. -/
theorem map_attr_of_map_scrubGran (l1 l2 : List Xml)
    (hl : l1.map scrubGran = l2.map scrubGran) :
    l1.map (fun g => g.attr "granuleIdentifier") =
      l2.map (fun g => g.attr "granuleIdentifier") := by
  have h2 := congrArg (List.map (fun g => Xml.attr g "granuleIdentifier")) hl
  rw [List.map_map, List.map_map] at h2
  exact h2

/-- C9: the extraction result does not depend on which granule-image-identity
sub-element tag (`IMAGE_ID` vs `IMAGE_FILE`) is present or on those
sub-elements' contents: two product documents identical except in those
sub-elements produce the same granule-to-sensing-time mapping, because the
tag selected on lines 59-62 is never consulted again. -/
theorem image_tag_independence (env : Env) (p : String) (a : Archive)
    (d1 d2 : Xml) (h : prodDocEquivImg d1 d2) :
    productStage env p a d1 = productStage env p a d2 := by
  have h' : scrubSteps granListSteps d1 = scrubSteps granListSteps d2 := h
  have key : ∀ t : String,
      (findallAux (granListSteps ++ [t]) [d1]).map scrubGran =
        (findallAux (granListSteps ++ [t]) [d2]).map scrubGran := by
    intro t
    have e1 := findallAux_scrub t granListSteps [d1]
    have e2 := findallAux_scrub t granListSteps [d2]
    simp only [List.map_cons, List.map_nil] at e1 e2
    rw [← e1, ← e2, h']
  have hsteps1 : parseSteps grnSearchTerm = granListSteps ++ ["Granules"] := rfl
  have hsteps2 : parseSteps (pyDropRight grnSearchTerm 1) =
      granListSteps ++ ["Granule"] := rfl
  have hT1 : (d1.findall grnSearchTerm).map scrubGran =
      (d2.findall grnSearchTerm).map scrubGran := by
    unfold Xml.findall
    rw [hsteps1]
    exact key "Granules"
  have hT2 : (d1.findall (pyDropRight grnSearchTerm 1)).map scrubGran =
      (d2.findall (pyDropRight grnSearchTerm 1)).map scrubGran := by
    unfold Xml.findall
    rw [hsteps2]
    exact key "Granule"
  have hB : d1.findall "./*/Product_Info/PROCESSING_BASELINE" =
      d2.findall "./*/Product_Info/PROCESSING_BASELINE" := by
    have hshape : granListSteps = ["*", "Product_Info"] ++ "Product_Organisation" :: ["Granule_List"] := rfl
    have e1 := findallAux_scrub_divergent "PROCESSING_BASELINE" "Product_Organisation"
      ["Granule_List"] (by decide) (by decide) (by decide) ["*", "Product_Info"] [d1]
    have e2 := findallAux_scrub_divergent "PROCESSING_BASELINE" "Product_Organisation"
      ["Granule_List"] (by decide) (by decide) (by decide) ["*", "Product_Info"] [d2]
    simp only [List.map_cons, List.map_nil, ← hshape] at e1 e2
    have hstepsB : parseSteps "./*/Product_Info/PROCESSING_BASELINE" =
        ["*", "Product_Info"] ++ ["PROCESSING_BASELINE"] := rfl
    unfold Xml.findall
    rw [hstepsB, ← e1, ← e2, h']
  have hselA : (selectGranules d1).map (fun g => g.attr "granuleIdentifier") =
      (selectGranules d2).map (fun g => g.attr "granuleIdentifier") := by
    have hlen1 : (d1.findall grnSearchTerm).length = (d2.findall grnSearchTerm).length := by
      have := congrArg List.length hT1
      simpa using this
    have hE : (d1.findall grnSearchTerm).isEmpty = (d2.findall grnSearchTerm).isEmpty := by
      cases hc1 : d1.findall grnSearchTerm <;> cases hc2 : d2.findall grnSearchTerm <;>
        rw [hc1, hc2] at hlen1 <;> simp_all
    by_cases hE1 : (d1.findall grnSearchTerm).isEmpty
    · have hE2 : (d2.findall grnSearchTerm).isEmpty = true := by rw [← hE]; exact hE1
      simp only [selectGranules, hE1, hE2, if_true]
      exact map_attr_of_map_scrubGran _ _ hT2
    · have hE2 : (d2.findall grnSearchTerm).isEmpty = false := by
        rw [← hE]; exact Bool.not_eq_true _ ▸ (by simpa using hE1)
      have hE1f : (d1.findall grnSearchTerm).isEmpty = false := by simpa using hE1
      simp only [selectGranules, hE1f, hE2, Bool.false_eq_true, if_false]
      exact map_attr_of_map_scrubGran _ _ hT1
  have hheadlen : (selectGranules d1).length = (selectGranules d2).length := by
    have := congrArg List.length hselA
    simpa using this
  cases hc1 : selectGranules d1 with
  | nil =>
    cases hc2 : selectGranules d2 with
    | nil => rw [productStage_nil env p a d1 hc1, productStage_nil env p a d2 hc2]
    | cons y ys => rw [hc1, hc2] at hheadlen; simp at hheadlen
  | cons x xs =>
    cases hc2 : selectGranules d2 with
    | nil => rw [hc1, hc2] at hheadlen; simp at hheadlen
    | cons y ys =>
      rw [productStage_cons env p a d1 x xs hc1, productStage_cons env p a d2 y ys hc2, hB]
      cases (d2.findall "./*/Product_Info/PROCESSING_BASELINE").head? with
      | none => rfl
      | some blElem =>
        apply granMdLoop_attr_congr
        rw [← hc1, ← hc2]
        exact hselA

/-- C9 witness: swapping the first granule's `IMAGE_ID` sub-element for an
`IMAGE_FILE` sub-element with different content leaves the extraction
result unchanged. -/
theorem image_tag_independence_witness :
    productStage env9 "d9.zip" archive9 doc9a = productStage env9 "d9.zip" archive9 doc9b :=
  image_tag_independence env9 "d9.zip" archive9 doc9a doc9b rfl
